import Mathlib

/-!
Verification of the gpython core excerpt: the `Dict` mapping type
(py/dict.go), the `Function` object (py/function.go) and the `eval`/`exec`
dispatcher (vm/builtin.go), shallowly embedded in Lean.

Modelling conventions:
* Go interface values (`py.Object`) become the inductive `Object`.
* A Go `Dict` (`map[Object]Object`) becomes a key-unique association list
  `DictData`; Go's reference semantics for maps is made explicit where a claim
  needs it, either by returning the updated mapping alongside the result or by
  a small `Store` of dict cells addressed by index.
* Go's `==` on interface values becomes `objBeq`.  Go compares primitive
  values structurally; pointer identity (e.g. of `*Code` values) and the
  runtime panic on non-comparable keys (maps) are outside a value model, so
  `objBeq` is `false` on those constructors and `goComparable` marks the
  values whose Go comparison the model captures.
* Fallible Go code (`(Object, error)` returns) becomes `Except PyErr Object`;
  in-place mutation through a pointer becomes explicit state passing.
* External collaborators that are not part of the excerpt (the compiler and
  the bytecode evaluator) are parameters of the dispatcher, per their
  contracts: `Compile -> (CompiledUnit, error)` and
  `Execute(unit, globals, locals) -> (Object, error)`.
-/

/-- Error kinds used by this core (py exception registry). -/
inductive ExcKind where
  | typeError
  | keyError
  | valueError
deriving DecidableEq

/-- A raised Python-level error: a kind plus a formatted message
(`ExceptionNewf(kind, format, args...)`). -/
structure PyErr where
  kind : ExcKind
  msg : String
deriving DecidableEq

/-- The universal value type `py.Object`, restricted to the constructors this
core manipulates.  `code` carries the three `*py.Code` fields the excerpt
reads (Name, Consts, Freevars); `dict` carries the mapping's contents. -/
inductive Object where
  | none
  | notImplemented
  | boolean (b : Bool)
  | str (s : String)
  | bytes (s : String)
  | intVal (n : Int)
  | code (name : String) (consts : List Object) (freevars : List String)
  | dict (entries : List (Object × Object))

/-- Go `==` on interface values, for the comparable primitives of the model.
Pointer identity (`code`) and non-comparable types (`dict`, which Go would
reject at runtime as a map key) are outside the value model and compare
`false`. -/
def objBeq : Object → Object → Bool
  | .none, .none => true
  | .notImplemented, .notImplemented => true
  | .boolean a, .boolean b => a == b
  | .str a, .str b => a == b
  | .bytes a, .bytes b => a == b
  | .intVal a, .intVal b => a == b
  | _, _ => false

/-- The values whose Go `==` comparison the model captures faithfully. -/
def goComparable : Object → Bool
  | .code _ _ _ => false
  | .dict _ => false
  | _ => true

/-- Whether a value is textual, i.e. the type assertion `key.(String)`
succeeds. -/
def isTextual : Object → Bool
  | .str _ => true
  | _ => false

/-- Whether a value is a code object, i.e. the assertion `value.(*Code)`
succeeds. -/
def isCode : Object → Bool
  | .code _ _ _ => true
  | _ => false

/-- Whether a value is a Dict, i.e. the assertion `other.(Dict)` succeeds. -/
def isDict : Object → Bool
  | .dict _ => true
  | _ => false

/-- Whether a value is an encoded-bytes value, i.e. the case `py.Bytes` of
the source switch succeeds. -/
def isBytes : Object → Bool
  | .bytes _ => true
  | _ => false

/-- Abstract rendering of Go's `%v` formatting of an Object, used only to
build error message strings; the claims depend on error kinds, not on these
rendered texts. -/
def goFmtV : Object → String
  | .none => "None"
  | .notImplemented => "NotImplemented"
  | .boolean b => if b then "true" else "false"
  | .str s => s
  | .bytes s => s
  | .intVal n => toString n
  | .code n _ _ => "code " ++ n
  | .dict _ => "dict"

/-- Contents of a Go `Dict` (`map[Object]Object`): a key-unique association
list. -/
abbrev DictData := List (Object × Object)

/-- Go map read `d[k]`: the value bound to the first key comparing `==` to
`k`, if any. -/
def dictLookup : DictData → Object → Option Object
  | [], _ => Option.none
  | (k2, v) :: rest, k => if objBeq k k2 then some v else dictLookup rest k

/-- Go map write `d[k] = v`: replace the binding of `k` if present, otherwise
add it. -/
def setItem : DictData → Object → Object → DictData
  | [], k, v => [(k, v)]
  | (k2, v2) :: rest, k, v =>
    if objBeq k k2 then (k, v) :: rest else (k2, v2) :: setItem rest k v

/-- Go's built-in `delete(d, k)`: remove the binding of `k` (the unique one,
keys being unique in a map). -/
def delItem : DictData → Object → DictData
  | [], _ => []
  | (k2, v2) :: rest, k =>
    if objBeq k k2 then rest else (k2, v2) :: delItem rest k

/-- Representation invariant of a Go map: no two bindings share a key. -/
def keysNodupB : DictData → Bool
  | [] => true
  | (k, _) :: rest => rest.all (fun kv => !objBeq k kv.1) && keysNodupB rest

mutual

/-- Well-formedness of a value for the identity-free fragment of the model:
every nested dict has key-unique comparable keys and well-formed values, and
no code objects occur (Go compares those by pointer identity, which the
value model does not capture). -/
def objWFB : Object → Bool
  | .dict d => keysNodupB d && entriesWFB d
  | .code _ _ _ => false
  | _ => true
termination_by o => sizeOf o

/-- Entry-list well-formedness: comparable keys and well-formed values. -/
def entriesWFB : List (Object × Object) → Bool
  | [] => true
  | (k, v) :: rest => goComparable k && objWFB v && entriesWFB rest
termination_by l => sizeOf l

end

/-- Checks that obj is exactly a dictionary and returns an error if not
(`DictCheckExact`); the error is the shared `expectingDict` TypeError. -/
def DictCheckExact (obj : Object) : Except PyErr DictData :=
  match obj with
  | .dict d => .ok d
  | _ => .error ⟨.typeError, "a dict is required"⟩

/-- Checks that obj is a dictionary (`DictCheck`); the source delegates to
the exact check (subclass checking is a FIXME there). -/
def DictCheck (obj : Object) : Except PyErr DictData :=
  DictCheckExact obj

/-- Dict.Copy: a fresh map holding the same key/value pairs
(`e := make(Dict, len(d)); for k, v := range d { e[k] = v }`).  At the
contents level the shallow copy has equal contents; independence of the new
storage is expressed at the `Store` level below. -/
def dictCopy (d : DictData) : DictData := d

/-- Dict.M__getitem__: the indexed read.  Only a textual key that is present
returns its value; every other case raises `KeyError` formatted from the
key. -/
def M__getitem__ (d : DictData) (key : Object) : Except PyErr Object :=
  if isTextual key then
    match dictLookup d key with
    | some res => .ok res
    | Option.none => .error ⟨.keyError, goFmtV key⟩
  else .error ⟨.keyError, goFmtV key⟩

/-- Dict.M__setitem__: the indexed write `d[key] = value`; accepts any key
and returns None.  The updated mapping is returned explicitly (Go mutates the
map in place). -/
def M__setitem__ (d : DictData) (key value : Object) :
    Except PyErr Object × DictData :=
  (.ok .none, setItem d key value)

/-- Dict.M__contains__: only accepts textual keys; a non-textual key raises
`KeyError` (the message renders the zero-valued `key` left by the failed type
assertion, i.e. the empty string). -/
def M__contains__ (d : DictData) (other : Object) : Except PyErr Object :=
  match other with
  | .str s =>
    if (dictLookup d (.str s)).isSome then .ok (.boolean true)
    else .ok (.boolean false)
  | _ => .error ⟨.keyError, "FIXME can only have string keys!: " ++ goFmtV (.str "")⟩

mutual

/-- Modelled from the spec: the generic equality dispatch `Eq` of the
capability layer, whose source file is not part of the excerpt.  Per the
spec, the left operand's equality capability is tried first, then the
right's, with identity comparison as the fallback.  For two dicts this
dispatches to Dict.M__eq__ (whose loop is `dictEqLoop` below); for the
primitive values of the model the capability/identity outcome is structural
equality, i.e. `objBeq`. -/
def pyEq (a b : Object) : Except PyErr Object :=
  match a, b with
  | .dict da, .dict db =>
    if da.length ≠ db.length then .ok (.boolean false) else dictEqLoop da db
  | a, b => .ok (.boolean (objBeq a b))
termination_by sizeOf a

/-- The loop of Dict.M__eq__ (`for k, av := range a`): each key of `a` must be
present in `b` with a value whose generic equality against `av` does not
come out False; an equality error aborts the whole comparison. -/
def dictEqLoop : List (Object × Object) → List (Object × Object) → Except PyErr Object
  | [], _ => .ok (.boolean true)
  | (k, av) :: rest, b =>
    match dictLookup b k with
    | Option.none => .ok (.boolean false)
    | some bv =>
      match pyEq av bv with
      | .error e => .error e
      | .ok res =>
        match res with
        | .boolean false => .ok (.boolean false)
        | _ => dictEqLoop rest b
termination_by l _ => sizeOf l

end

/-- Dict.M__eq__: NotImplemented for a non-Dict operand, False on a length
mismatch, otherwise the key/value comparison loop. -/
def M__eq__ (a : DictData) (other : Object) : Except PyErr Object :=
  match other with
  | .dict b =>
    if a.length ≠ b.length then .ok (.boolean false) else dictEqLoop a b
  | _ => .ok .notImplemented

/-- Dict.M__ne__: delegates to M__eq__, passes NotImplemented and errors
through, and otherwise flips True to False and anything else to True. -/
def M__ne__ (a : DictData) (other : Object) : Except PyErr Object :=
  match M__eq__ a other with
  | .error e => .error e
  | .ok res =>
    match res with
    | .notImplemented => .ok .notImplemented
    | .boolean true => .ok (.boolean false)
    | _ => .ok (.boolean true)

/-- A heap of dict cells, making Go's reference semantics for maps explicit:
a `Dict` value held by Go code is an index into the store. -/
abbrev Store := List DictData

/-- Contents of the dict cell at reference `r`. -/
def storeGet (st : Store) (r : Nat) : DictData :=
  (st[r]?).getD []

/-- Dict.Copy at the store level: allocate a fresh cell holding the same
key/value pairs and return its reference. -/
def storeCopy (st : Store) (r : Nat) : Store × Nat :=
  (st ++ [dictCopy (storeGet st r)], st.length)

/-- Go map write through a reference: mutate the cell at `r` in place. -/
def storeSetItem (st : Store) (r : Nat) (k v : Object) : Store :=
  st.set r (setItem (storeGet st r) k v)

/-- Go map delete through a reference: mutate the cell at `r` in place. -/
def storeDelItem (st : Store) (r : Nat) (k : Object) : Store :=
  st.set r (delItem (storeGet st r) k)

/-- The compiled code unit `*py.Code`, restricted to the fields this core
reads: Name, Consts (the first constant may be the doc string) and Freevars
(names of the free variables). -/
structure Code where
  Name : String
  Consts : List Object
  Freevars : List String

/-- Modelled from the spec: `Code.GetNumFree`, the code unit's free-variable
count (py/code.go is not part of the excerpt). -/
def Code.GetNumFree (c : Code) : Nat := c.Freevars.length

/-- Alias for `Code`, needed because the Function structure has a field of
the same name. -/
abbrev CodeT := Code

/-- A python Function object (py/function.go).  Go's nil zero values for the
optional Tuple/Dict fields are modelled as empty; the Weakreflist field
(an external py.List) is outside the excerpt and carries no claim. -/
structure Function where
  Code : CodeT
  Globals : DictData
  Defaults : List Object
  KwDefaults : DictData
  Closure : List Object
  Doc : Object
  Name : String
  Dict : DictData
  Module : Object
  Annotations : DictData
  Qualname : String

/-- NewFunction: derives Doc from the code's first constant (kept only when
it is textual), Module from `globals["__name__"]` (None when absent),
defaults an empty qualname to the code's Name, and starts with a fresh empty
attribute dict; defaults, keyword defaults, closure and annotations stay at
their zero values. -/
def NewFunction (code : Code) (globals : DictData) (qualname : String) : Function :=
  let doc : Object :=
    match code.Consts with
    | c :: _ =>
      match c with
      | .str s => .str s
      | _ => .none
    | [] => .none
  let module : Object :=
    match dictLookup globals (.str "__name__") with
    | some moduleobj => moduleobj
    | Option.none => .none
  let qualname2 := if qualname = "" then code.Name else qualname
  { Code := code
    Qualname := qualname2
    Globals := globals
    Name := code.Name
    Doc := doc
    Module := module
    Dict := []
    Defaults := []
    KwDefaults := []
    Closure := []
    Annotations := [] }

/-- The Fset of the `__code__` property: only a code object may be assigned,
and its free-variable count must equal the current closure length; on either
failure the function is returned unmodified together with the error (Go
returns before mutating). -/
def Function.fsetCode (f : Function) (value : Object) : Function × Option PyErr :=
  match value with
  | .code n cs fv =>
    let code : CodeT := ⟨n, cs, fv⟩
    let nfree := code.Freevars.length
    let nclosure := f.Closure.length
    if nfree ≠ nclosure then
      (f, some ⟨.valueError,
        f.Name ++ "() requires a code object with " ++ toString nclosure ++
          " free vars, not " ++ toString nfree⟩)
    else ({ f with Code := code }, Option.none)
  | _ => (f, some ⟨.typeError, "__code__ must be set to a code object"⟩)

/-- Modelled from the spec: `py.UnpackTuple` for the dispatcher's `1, 3`
arity (its source file is not part of the excerpt): one to three positional
arguments, the missing trailing ones keeping their initial `py.None`; an
arity violation raises `TypeError` naming the mode and the counts.  Keyword
arguments carry no claim and are not modelled. -/
def unpackEvalArgs (mode : String) (args : List Object) :
    Except PyErr (Object × Object × Object) :=
  match args with
  | [c] => .ok (c, .none, .none)
  | [c, g] => .ok (c, g, .none)
  | [c, g, l] => .ok (c, g, l)
  | [] => .error ⟨.typeError, mode ++ "() expected at least 1 arguments, got 0"⟩
  | _ => .error ⟨.typeError,
      mode ++ "() expected at most 3 arguments, got " ++ toString args.length⟩

/-- Namespace resolution of the dispatcher (vm/builtin.go lines 25-32): an
absent globals pulls in the caller's current globals, and then the caller's
current locals unless locals was given; a given globals with absent locals
doubles as locals; otherwise both are used as given. -/
def resolveNamespaces (globalsArg localsArg : Object)
    (currentGlobals currentLocals : DictData) : Object × Object :=
  match globalsArg with
  | .none =>
    (.dict currentGlobals,
      match localsArg with
      | .none => .dict currentLocals
      | l => l)
  | g =>
    match localsArg with
    | .none => (g, g)
    | l => (g, l)

/-- Go's `strings.TrimLeft(codeStr, " \t")`. -/
def trimLeftSpaceTab (s : String) : String :=
  s.dropWhile fun c => c == ' ' || c == '\t'

/-- Resolution of the source argument into a code unit: a code object is used
directly; text or bytes are stripped of leading spaces/tabs and handed to the
external compiler with filename `"<string>"` and the mode (the constant
flags `0, true` of the Go call are absorbed into the collaborator); any
other type raises `TypeError` naming the mode. -/
def resolveCode (compile : String → String → String → Except PyErr Code)
    (mode : String) (cmd : Object) : Except PyErr Code :=
  match cmd with
  | .code n cs fv => .ok ⟨n, cs, fv⟩
  | .str s => compile (trimLeftSpaceTab s) "<string>" mode
  | .bytes s => compile (trimLeftSpaceTab s) "<string>" mode
  | _ => .error ⟨.typeError, mode ++ "() arg 1 must be a string, bytes or code object"⟩

/-- All stages of builtinEvalOrExec before the final EvalCode call: argument
unpacking, namespace resolution, the dict checks, the `__builtins__`
injection, source resolution and the free-variable rejection.  The second
component is the resolved globals mapping as left behind by the call (Go
mutates it in place; `Option.none` when the call failed before a globals
mapping was resolved). -/
def builtinEvalOrExecCore (compile : String → String → String → Except PyErr Code)
    (args : List Object) (currentLocals currentGlobals builtins : DictData)
    (mode : String) :
    Except PyErr (Code × DictData × DictData) × Option DictData :=
  match unpackEvalArgs mode args with
  | .error e => (.error e, Option.none)
  | .ok (cmd, globalsArg, localsArg) =>
    let gl := resolveNamespaces globalsArg localsArg currentGlobals currentLocals
    match DictCheck gl.1 with
    | .error _ => (.error ⟨.typeError, "globals must be a dict"⟩, Option.none)
    | .ok globalsDict =>
      match DictCheck gl.2 with
      | .error _ => (.error ⟨.typeError, "locals must be a dict"⟩, Option.none)
      | .ok localsDict =>
        let globalsDict2 :=
          if (dictLookup globalsDict (.str "__builtins__")).isSome then globalsDict
          else setItem globalsDict (.str "__builtins__") (.dict builtins)
        match resolveCode compile mode cmd with
        | .error e => (.error e, some globalsDict2)
        | .ok code =>
          if code.GetNumFree > 0 then
            (.error ⟨.typeError,
              "code passed to " ++ mode ++ "() may not contain free variables"⟩,
              some globalsDict2)
          else
            (.ok (code, globalsDict2, localsDict), some globalsDict2)

/-- builtinEvalOrExec: the staged dispatcher followed by the external
Evaluator call `EvalCode(code, globalsDict, localsDict)`.  The second
component again reports the resolved globals mapping after the call. -/
def builtinEvalOrExec (compile : String → String → String → Except PyErr Code)
    (evalCode : Code → DictData → DictData → Except PyErr Object)
    (args : List Object) (currentLocals currentGlobals builtins : DictData)
    (mode : String) : Except PyErr Object × Option DictData :=
  match builtinEvalOrExecCore compile args currentLocals currentGlobals builtins mode with
  | (.error e, g) => (.error e, g)
  | (.ok (code, globalsDict, localsDict), g) => (evalCode code globalsDict localsDict, g)

/-- builtinEval: the dispatcher in mode "eval"; returns the Evaluator's
result. -/
def builtinEval (compile : String → String → String → Except PyErr Code)
    (evalCode : Code → DictData → DictData → Except PyErr Object)
    (args : List Object) (currentLocals currentGlobals builtins : DictData) :
    Except PyErr Object × Option DictData :=
  builtinEvalOrExec compile evalCode args currentLocals currentGlobals builtins "eval"

/-- builtinExec: the dispatcher in mode "exec"; propagates errors and
otherwise discards the computed value in favour of None. -/
def builtinExec (compile : String → String → String → Except PyErr Code)
    (evalCode : Code → DictData → DictData → Except PyErr Object)
    (args : List Object) (currentLocals currentGlobals builtins : DictData) :
    Except PyErr Object × Option DictData :=
  match builtinEvalOrExec compile evalCode args currentLocals currentGlobals builtins "exec" with
  | (.error e, g) => (.error e, g)
  | (.ok _, g) => (.ok Object.none, g)

/-! ### Supporting lemmas -/

/-- Go `==` on the modelled comparable values coincides with structural
equality. -/
theorem objBeq_iff (a b : Object) :
    objBeq a b = true ↔ (a = b ∧ goComparable a = true) := by
  cases a <;> cases b <;> simp [objBeq, goComparable]

/-- Go `==` is reflexive on comparable values. -/
theorem objBeq_refl (k : Object) (h : goComparable k = true) : objBeq k k = true := by
  rw [objBeq_iff]
  exact ⟨rfl, h⟩

/-- A just-written key reads back its value. -/
theorem dictLookup_setItem_self (d : DictData) (k v : Object)
    (h : objBeq k k = true) : dictLookup (setItem d k v) k = some v := by
  induction d with
  | nil => simp [setItem, dictLookup, h]
  | cons kv rest ih =>
    obtain ⟨k2, v2⟩ := kv
    by_cases h2 : objBeq k k2 = true
    · simp [setItem, h2, dictLookup, h]
    · simp only [setItem, h2, if_false, Bool.false_eq_true, ite_false, dictLookup]
      exact ih

/-! ### C1: Dict Get/Contains on non-textual keys -/

/-- C1 (counterexample): the claim says `Get` succeeds on a non-textual key
that is present.  Storing the value "x" under the integer key 1 via Set makes
the key present, yet the indexed read raises a KeyError-kind failure instead
of returning the stored value. -/
theorem C1_get_nontextual_counterexample :
    M__setitem__ [] (Object.intVal 1) (Object.str "x") =
      (Except.ok Object.none, [((Object.intVal 1 : Object), Object.str "x")]) ∧
    dictLookup [((Object.intVal 1 : Object), Object.str "x")] (Object.intVal 1) =
      some (Object.str "x") ∧
    M__getitem__ [((Object.intVal 1 : Object), Object.str "x")] (Object.intVal 1) ≠
      Except.ok (Object.str "x") ∧
    M__getitem__ [((Object.intVal 1 : Object), Object.str "x")] (Object.intVal 1) =
      Except.error ⟨ExcKind.keyError, goFmtV (Object.intVal 1)⟩ := by
  refine ⟨rfl, rfl, ?_, rfl⟩
  simp [M__getitem__, isTextual]

/-- C1 (amended): `Set` accepts a non-textual comparable key and makes it
present, but the indexed read `Get` raises a KeyError-kind failure for every
non-textual key regardless of presence — exactly like `Contains`, which also
raises KeyError-kind for every non-textual key regardless of presence. -/
theorem C1_nontextual_get_and_contains (d : DictData) (k v : Object)
    (hk : isTextual k = false) (hc : goComparable k = true) :
    M__setitem__ d k v = (Except.ok Object.none, setItem d k v) ∧
    dictLookup (setItem d k v) k = some v ∧
    M__getitem__ d k = Except.error ⟨ExcKind.keyError, goFmtV k⟩ ∧
    M__getitem__ (setItem d k v) k = Except.error ⟨ExcKind.keyError, goFmtV k⟩ ∧
    M__contains__ d k = Except.error ⟨ExcKind.keyError,
      "FIXME can only have string keys!: " ++ goFmtV (Object.str "")⟩ ∧
    M__contains__ (setItem d k v) k = Except.error ⟨ExcKind.keyError,
      "FIXME can only have string keys!: " ++ goFmtV (Object.str "")⟩ := by
  refine ⟨rfl, dictLookup_setItem_self d k v (objBeq_refl k hc), ?_, ?_, ?_, ?_⟩
  · simp [M__getitem__, hk]
  · simp [M__getitem__, hk]
  · cases k <;> simp_all [M__contains__, isTextual]
  · cases k <;> simp_all [M__contains__, isTextual]

/-- C1 (witness): the amended statement at the integer key 1 in the
one-entry dict built by Set. -/
theorem C1_nontextual_get_and_contains_witness :
    isTextual (Object.intVal 1) = false ∧
    goComparable (Object.intVal 1) = true ∧
    (M__setitem__ [] (Object.intVal 1) (Object.str "x") =
      (Except.ok Object.none, setItem [] (Object.intVal 1) (Object.str "x")) ∧
    dictLookup (setItem [] (Object.intVal 1) (Object.str "x")) (Object.intVal 1) =
      some (Object.str "x") ∧
    M__getitem__ [] (Object.intVal 1) =
      Except.error ⟨ExcKind.keyError, goFmtV (Object.intVal 1)⟩ ∧
    M__getitem__ (setItem [] (Object.intVal 1) (Object.str "x")) (Object.intVal 1) =
      Except.error ⟨ExcKind.keyError, goFmtV (Object.intVal 1)⟩ ∧
    M__contains__ [] (Object.intVal 1) = Except.error ⟨ExcKind.keyError,
      "FIXME can only have string keys!: " ++ goFmtV (Object.str "")⟩ ∧
    M__contains__ (setItem [] (Object.intVal 1) (Object.str "x")) (Object.intVal 1) =
      Except.error ⟨ExcKind.keyError,
        "FIXME can only have string keys!: " ++ goFmtV (Object.str "")⟩) :=
  ⟨rfl, rfl, C1_nontextual_get_and_contains [] (Object.intVal 1) (Object.str "x") rfl rfl⟩

/-! ### C4: reassigning the `__code__` attribute -/

/-- C4: assigning a code object to `__code__` succeeds exactly when its
free-variable count equals the closure length, in which case only the Code
field changes; on a count mismatch a ValueError-kind error is raised and the
Function is unchanged; assigning a non-code value raises a TypeError-kind
error and leaves the Function unchanged. -/
theorem C4_code_reassignment (f : Function) (n : String) (cs : List Object)
    (fv : List String) (value : Object) :
    (fv.length = f.Closure.length →
      Function.fsetCode f (Object.code n cs fv) =
        ({ f with Code := ⟨n, cs, fv⟩ }, Option.none)) ∧
    (fv.length ≠ f.Closure.length →
      Function.fsetCode f (Object.code n cs fv) =
        (f, some ⟨ExcKind.valueError,
          f.Name ++ "() requires a code object with " ++ toString f.Closure.length ++
            " free vars, not " ++ toString fv.length⟩)) ∧
    (isCode value = false →
      Function.fsetCode f value =
        (f, some ⟨ExcKind.typeError, "__code__ must be set to a code object"⟩)) := by
  refine ⟨fun h => ?_, fun h => ?_, fun h => ?_⟩
  · simp [Function.fsetCode, h]
  · simp [Function.fsetCode, h]
  · cases value <;> simp_all [Function.fsetCode, isCode]

/-- C4 (witness): on a closure-free function, a code object with no free
variables is accepted and stored, and a non-code value is rejected with
TypeError. -/
theorem C4_code_reassignment_witness :
    ([] : List String).length = (NewFunction ⟨"foo", [], []⟩ [] "").Closure.length ∧
    Function.fsetCode (NewFunction ⟨"foo", [], []⟩ [] "") (Object.code "g" [] []) =
      ({ NewFunction ⟨"foo", [], []⟩ [] "" with Code := ⟨"g", [], []⟩ }, Option.none) ∧
    isCode (Object.intVal 0) = false ∧
    Function.fsetCode (NewFunction ⟨"foo", [], []⟩ [] "") (Object.intVal 0) =
      (NewFunction ⟨"foo", [], []⟩ [] "",
        some ⟨ExcKind.typeError, "__code__ must be set to a code object"⟩) :=
  ⟨rfl,
   (C4_code_reassignment (NewFunction ⟨"foo", [], []⟩ [] "") "g" [] []
      (Object.intVal 0)).1 rfl,
   rfl,
   (C4_code_reassignment (NewFunction ⟨"foo", [], []⟩ [] "") "g" [] []
      (Object.intVal 0)).2.2 rfl⟩

/-! ### C5: Function construction defaults -/

/-- C5: constructing a Function with an empty qualname yields Qualname equal
to the code's Name; Module is the value of `globals["__name__"]` when
present, None otherwise; Doc is the code's first constant when textual and
None otherwise (also when there are no constants); the constructor stores
the given code and globals unchanged, sets Name from the code and starts
with a fresh empty attribute dict. -/
theorem C5_function_construction (code : Code) (globals : DictData)
    (q : String) (m : Object) :
    (NewFunction code globals "").Qualname = code.Name ∧
    (dictLookup globals (Object.str "__name__") = some m →
      (NewFunction code globals q).Module = m) ∧
    (dictLookup globals (Object.str "__name__") = Option.none →
      (NewFunction code globals q).Module = Object.none) ∧
    (∀ s rest, code.Consts = Object.str s :: rest →
      (NewFunction code globals q).Doc = Object.str s) ∧
    (∀ c rest, code.Consts = c :: rest → isTextual c = false →
      (NewFunction code globals q).Doc = Object.none) ∧
    (code.Consts = [] → (NewFunction code globals q).Doc = Object.none) ∧
    (NewFunction code globals q).Code = code ∧
    (NewFunction code globals q).Globals = globals ∧
    (NewFunction code globals q).Name = code.Name ∧
    (NewFunction code globals q).Dict = [] := by
  refine ⟨?_, fun h => ?_, fun h => ?_, fun s rest h => ?_, fun c rest h hc => ?_,
    fun h => ?_, rfl, rfl, rfl, rfl⟩
  · simp [NewFunction]
  · simp [NewFunction, h]
  · simp [NewFunction, h]
  · simp [NewFunction, h]
  · cases c <;> simp_all [NewFunction, isTextual]
  · simp [NewFunction, h]

/-- C5 (witness): a code named "foo" with a textual first constant, globals
carrying `__name__ = "mymod"`, empty qualname. -/
theorem C5_function_construction_witness :
    (NewFunction ⟨"foo", [Object.str "docstring"], []⟩
        [((Object.str "__name__" : Object), Object.str "mymod")] "").Qualname = "foo" ∧
    dictLookup [((Object.str "__name__" : Object), Object.str "mymod")]
        (Object.str "__name__") = some (Object.str "mymod") ∧
    (NewFunction ⟨"foo", [Object.str "docstring"], []⟩
        [((Object.str "__name__" : Object), Object.str "mymod")] "").Module =
      Object.str "mymod" ∧
    dictLookup ([] : DictData) (Object.str "__name__") = Option.none ∧
    (NewFunction ⟨"foo", [Object.str "docstring"], []⟩ [] "").Module = Object.none ∧
    (NewFunction ⟨"foo", [Object.str "docstring"], []⟩ [] "").Doc =
      Object.str "docstring" := by
  have h1 := C5_function_construction ⟨"foo", [Object.str "docstring"], []⟩
    [((Object.str "__name__" : Object), Object.str "mymod")] "" (Object.str "mymod")
  have h2 := C5_function_construction ⟨"foo", [Object.str "docstring"], []⟩ [] ""
    (Object.str "mymod")
  exact ⟨h1.1, rfl, h1.2.1 rfl, rfl, h2.2.2.1 rfl,
    h2.2.2.2.1 "docstring" [] rfl⟩

/-! ### C8: Copy independence -/

/-- C8: copying a dict cell yields a fresh cell with exactly the same
key/value pairs, and mutating the copy (adding or removing a key) leaves the
original cell's contents (hence its length) unchanged. -/
theorem C8_copy_independence (st : Store) (r : Nat) (h : r < st.length)
    (k v : Object) :
    storeGet (storeCopy st r).1 (storeCopy st r).2 = storeGet st r ∧
    storeGet (storeCopy st r).1 r = storeGet st r ∧
    storeGet (storeSetItem (storeCopy st r).1 (storeCopy st r).2 k v) r =
      storeGet st r ∧
    storeGet (storeDelItem (storeCopy st r).1 (storeCopy st r).2 k) r =
      storeGet st r ∧
    (storeGet (storeSetItem (storeCopy st r).1 (storeCopy st r).2 k v) r).length =
      (storeGet st r).length := by
  have hne : st.length ≠ r := (Nat.ne_of_lt h).symm
  have hcopy : storeGet (st ++ [dictCopy (storeGet st r)]) st.length =
      storeGet st r := by
    simp [storeGet, List.getElem?_concat_length, dictCopy]
  constructor
  · exact hcopy
  constructor
  · simp [storeGet, storeCopy, List.getElem?_append_left h]
  constructor
  · simp only [storeCopy, storeSetItem, storeGet,
      List.getElem?_set_ne hne, List.getElem?_append_left h]
  constructor
  · simp only [storeCopy, storeDelItem, storeGet,
      List.getElem?_set_ne hne, List.getElem?_append_left h]
  · simp only [storeCopy, storeSetItem, storeGet,
      List.getElem?_set_ne hne, List.getElem?_append_left h]

/-- C8 (witness): a one-cell store; the copy reads back the original's single
binding, and adding a fresh key to the copy leaves the original's contents
untouched. -/
theorem C8_copy_independence_witness :
    (0 : Nat) < ([[((Object.str "a" : Object), Object.intVal 1)]] : Store).length ∧
    storeGet (storeCopy [[((Object.str "a" : Object), Object.intVal 1)]] 0).1
        (storeCopy [[((Object.str "a" : Object), Object.intVal 1)]] 0).2 =
      storeGet [[((Object.str "a" : Object), Object.intVal 1)]] 0 ∧
    storeGet (storeSetItem (storeCopy [[((Object.str "a" : Object), Object.intVal 1)]] 0).1
        (storeCopy [[((Object.str "a" : Object), Object.intVal 1)]] 0).2
        (Object.str "b") (Object.intVal 2)) 0 =
      storeGet [[((Object.str "a" : Object), Object.intVal 1)]] 0 := by
  have h := C8_copy_independence [[((Object.str "a" : Object), Object.intVal 1)]] 0
    (by decide) (Object.str "b") (Object.intVal 2)
  exact ⟨by decide, h.1, h.2.2.1⟩

/-! ### Dispatcher lemmas -/

/-- The resolved-globals component of the dispatcher is fixed by its staged
core (the Evaluator call does not touch it in the model). -/
theorem builtinEvalOrExec_snd (compile : String → String → String → Except PyErr Code)
    (evalCode : Code → DictData → DictData → Except PyErr Object)
    (args : List Object) (cl cg b : DictData) (mode : String) :
    (builtinEvalOrExec compile evalCode args cl cg b mode).2 =
      (builtinEvalOrExecCore compile args cl cg b mode).2 := by
  unfold builtinEvalOrExec
  rcases h : builtinEvalOrExecCore compile args cl cg b mode with ⟨res, g⟩
  rcases res with e | ⟨c, gg, ll⟩ <;> simp

/-- Once unpacking and both dict checks succeed, the core is the builtins
injection followed by source resolution and the free-variable gate. -/
theorem builtinEvalOrExecCore_eq (compile : String → String → String → Except PyErr Code)
    (args : List Object) (cl cg b : DictData) (mode : String)
    (cmd gArg lArg : Object) (gD lD : DictData)
    (hu : unpackEvalArgs mode args = .ok (cmd, gArg, lArg))
    (hg : DictCheck (resolveNamespaces gArg lArg cg cl).1 = .ok gD)
    (hl : DictCheck (resolveNamespaces gArg lArg cg cl).2 = .ok lD) :
    builtinEvalOrExecCore compile args cl cg b mode =
      (let gD2 := if (dictLookup gD (Object.str "__builtins__")).isSome then gD
                  else setItem gD (Object.str "__builtins__") (Object.dict b)
       match resolveCode compile mode cmd with
       | .error e => (.error e, some gD2)
       | .ok code =>
         if code.GetNumFree > 0 then
           (.error ⟨.typeError,
             "code passed to " ++ mode ++ "() may not contain free variables"⟩,
             some gD2)
         else (.ok (code, gD2, lD), some gD2)) := by
  unfold builtinEvalOrExecCore
  rw [hu]
  simp only [hg, hl]

/-! ### C2: eval/exec namespace defaulting and builtins injection -/

/-- C2: with globals absent the caller's current globals and locals are used
(the current locals only while locals is also absent); with globals given
and locals absent, locals is the given globals; with both given they are
used as-is; and when the resolved globals lacks a `__builtins__` key the
dispatcher stores the caller-supplied builtins mapping under that key in the
resolved globals it leaves behind (when the key is present the globals is
left as it was). -/
theorem C2_namespace_defaulting (compile : String → String → String → Except PyErr Code)
    (evalCode : Code → DictData → DictData → Except PyErr Object)
    (cl cg b : DictData) (mode : String) (cmd g l : Object) (gd ld : DictData) :
    (∀ cl2 cg2, builtinEvalOrExec compile evalCode [cmd] cl cg b mode =
      builtinEvalOrExec compile evalCode
        [cmd, Object.dict cg, Object.dict cl] cl2 cg2 b mode) ∧
    (l ≠ Object.none → ∀ cl2 cg2,
      builtinEvalOrExec compile evalCode [cmd, Object.none, l] cl cg b mode =
        builtinEvalOrExec compile evalCode [cmd, Object.dict cg, l] cl2 cg2 b mode) ∧
    (g ≠ Object.none →
      builtinEvalOrExec compile evalCode [cmd, g] cl cg b mode =
        builtinEvalOrExec compile evalCode [cmd, g, g] cl cg b mode) ∧
    (g ≠ Object.none → l ≠ Object.none →
      resolveNamespaces g l cg cl = (g, l)) ∧
    (dictLookup gd (Object.str "__builtins__") = Option.none →
      (builtinEvalOrExec compile evalCode
          [cmd, Object.dict gd, Object.dict ld] cl cg b mode).2 =
        some (setItem gd (Object.str "__builtins__") (Object.dict b)) ∧
      dictLookup (setItem gd (Object.str "__builtins__") (Object.dict b))
          (Object.str "__builtins__") = some (Object.dict b)) ∧
    (∀ bv, dictLookup gd (Object.str "__builtins__") = some bv →
      (builtinEvalOrExec compile evalCode
          [cmd, Object.dict gd, Object.dict ld] cl cg b mode).2 = some gd) := by
  refine ⟨fun cl2 cg2 => rfl, fun hl cl2 cg2 => ?_, fun _hg => ?_, fun hg hl => ?_,
    fun h => ⟨?_, ?_⟩, fun bv h => ?_⟩
  · cases l <;> first | rfl | exact absurd rfl hl
  · cases g <;> rfl
  · cases g <;> cases l <;>
      first | rfl | exact absurd rfl hg | exact absurd rfl hl
  · rw [builtinEvalOrExec_snd,
      builtinEvalOrExecCore_eq compile [cmd, Object.dict gd, Object.dict ld] cl cg b mode
        cmd (Object.dict gd) (Object.dict ld) gd ld rfl rfl rfl]
    simp only [h, Option.isSome_none, Bool.false_eq_true, if_false]
    rcases hrc : resolveCode compile mode cmd with e | code
    · simp
    · by_cases hf : code.GetNumFree > 0 <;> simp [hf]
  · exact dictLookup_setItem_self gd _ _ rfl
  · rw [builtinEvalOrExec_snd,
      builtinEvalOrExecCore_eq compile [cmd, Object.dict gd, Object.dict ld] cl cg b mode
        cmd (Object.dict gd) (Object.dict ld) gd ld rfl rfl rfl]
    simp only [h, Option.isSome_some, if_true]
    rcases hrc : resolveCode compile mode cmd with e | code
    · simp
    · by_cases hf : code.GetNumFree > 0 <;> simp [hf]

/-- C2 (witness): a code-object source with empty namespaces everywhere; the
no-namespace call equals the explicit-namespace call, and the missing
`__builtins__` key is injected into the resolved globals. -/
theorem C2_namespace_defaulting_witness :
    (builtinEvalOrExec (fun _ _ _ => .ok ⟨"c", [], []⟩)
        (fun _ _ _ => .ok (Object.intVal 7)) [Object.code "c" [] []] [] [] [] "eval" =
      builtinEvalOrExec (fun _ _ _ => .ok ⟨"c", [], []⟩)
        (fun _ _ _ => .ok (Object.intVal 7))
        [Object.code "c" [] [], Object.dict [], Object.dict []] [] [] [] "eval") ∧
    dictLookup ([] : DictData) (Object.str "__builtins__") = Option.none ∧
    (builtinEvalOrExec (fun _ _ _ => .ok ⟨"c", [], []⟩)
        (fun _ _ _ => .ok (Object.intVal 7))
        [Object.code "c" [] [], Object.dict [], Object.dict []] [] [] [] "eval").2 =
      some (setItem [] (Object.str "__builtins__") (Object.dict [])) := by
  have h := C2_namespace_defaulting (fun _ _ _ => .ok ⟨"c", [], []⟩)
    (fun _ _ _ => .ok (Object.intVal 7)) [] [] [] "eval" (Object.code "c" [] [])
    (Object.dict []) (Object.dict []) [] []
  exact ⟨h.1 [] [], rfl, (h.2.2.2.2.1 rfl).1⟩

/-! ### C6: free-variable rejection -/

/-- C6: when the resolved compiled unit has one or more free variables the
dispatcher raises a TypeError-kind error whose message contains the mode
name and the phrase "may not contain free variables", and the result is the
same for every Evaluator — the Evaluator is never consulted. -/
theorem C6_free_variable_rejection (compile : String → String → String → Except PyErr Code)
    (e1 e2 : Code → DictData → DictData → Except PyErr Object)
    (args : List Object) (cl cg b : DictData) (mode : String)
    (cmd gArg lArg : Object) (gD lD : DictData) (code : Code)
    (hu : unpackEvalArgs mode args = .ok (cmd, gArg, lArg))
    (hg : DictCheck (resolveNamespaces gArg lArg cg cl).1 = .ok gD)
    (hl : DictCheck (resolveNamespaces gArg lArg cg cl).2 = .ok lD)
    (hc : resolveCode compile mode cmd = .ok code)
    (hf : 0 < code.GetNumFree) :
    builtinEvalOrExec compile e1 args cl cg b mode =
      builtinEvalOrExec compile e2 args cl cg b mode ∧
    (builtinEvalOrExec compile e1 args cl cg b mode).1 =
      .error ⟨.typeError,
        "code passed to " ++ mode ++ "() may not contain free variables"⟩ ∧
    mode.toList <:+:
      ("code passed to " ++ mode ++ "() may not contain free variables").toList ∧
    ("may not contain free variables").toList <:+:
      ("code passed to " ++ mode ++ "() may not contain free variables").toList := by
  have hcore : builtinEvalOrExecCore compile args cl cg b mode =
      (.error ⟨.typeError,
        "code passed to " ++ mode ++ "() may not contain free variables"⟩,
        some (if (dictLookup gD (Object.str "__builtins__")).isSome then gD
              else setItem gD (Object.str "__builtins__") (Object.dict b))) := by
    rw [builtinEvalOrExecCore_eq compile args cl cg b mode cmd gArg lArg gD lD hu hg hl]
    simp only [hc]
    rw [if_pos hf]
  refine ⟨?_, ?_, ?_, ?_⟩
  · unfold builtinEvalOrExec
    rw [hcore]
  · unfold builtinEvalOrExec
    rw [hcore]
  · exact ⟨"code passed to ".toList,
      "() may not contain free variables".toList, by simp⟩
  · refine ⟨("code passed to " ++ mode ++ "() ").toList, [], ?_⟩
    show _ ++ _ ++ [] = _
    rw [List.append_nil]
    show (("code passed to " ++ mode ++ "() ") ++ "may not contain free variables").toList = _
    congr 1
    rw [String.append_assoc, String.append_assoc]
    rfl

/-- C6 (witness): a precompiled unit with one free variable is rejected with
the TypeError message, identically under two different Evaluators. -/
theorem C6_free_variable_rejection_witness :
    resolveCode (fun _ _ _ => .ok ⟨"c", [], []⟩) "eval" (Object.code "c" [] ["x"]) =
      .ok ⟨"c", [], ["x"]⟩ ∧
    (0 : Nat) < Code.GetNumFree ⟨"c", [], ["x"]⟩ ∧
    builtinEvalOrExec (fun _ _ _ => .ok ⟨"c", [], []⟩) (fun _ _ _ => .ok (Object.intVal 7))
        [Object.code "c" [] ["x"]] [] [] [] "eval" =
      builtinEvalOrExec (fun _ _ _ => .ok ⟨"c", [], []⟩) (fun _ _ _ => .ok (Object.intVal 8))
        [Object.code "c" [] ["x"]] [] [] [] "eval" ∧
    (builtinEvalOrExec (fun _ _ _ => .ok ⟨"c", [], []⟩) (fun _ _ _ => .ok (Object.intVal 7))
        [Object.code "c" [] ["x"]] [] [] [] "eval").1 =
      .error ⟨.typeError, "code passed to " ++ "eval" ++ "() may not contain free variables"⟩ := by
  have h := C6_free_variable_rejection (fun _ _ _ => .ok ⟨"c", [], []⟩)
    (fun _ _ _ => .ok (Object.intVal 7)) (fun _ _ _ => .ok (Object.intVal 8))
    [Object.code "c" [] ["x"]] [] [] [] "eval" (Object.code "c" [] ["x"])
    Object.none Object.none [] [] ⟨"c", [], ["x"]⟩ rfl rfl rfl rfl (by decide)
  exact ⟨rfl, by decide, h.1, h.2.1⟩

/-! ### C7: eval/exec return semantics -/

/-- C7: when the staged core reaches the Evaluator, `eval` returns exactly
what the Evaluator computes (values and errors alike), while `exec` turns
any computed value into None and propagates any Evaluator error unchanged. -/
theorem C7_return_semantics (compile : String → String → String → Except PyErr Code)
    (evalCode : Code → DictData → DictData → Except PyErr Object)
    (args : List Object) (cl cg b : DictData) (code : Code)
    (gD lD : DictData) (gAfter gAfter2 : Option DictData) :
    (builtinEvalOrExecCore compile args cl cg b "eval" = (.ok (code, gD, lD), gAfter) →
      (builtinEval compile evalCode args cl cg b).1 = evalCode code gD lD) ∧
    (builtinEvalOrExecCore compile args cl cg b "eval" = (.ok (code, gD, lD), gAfter) →
      ∀ e, evalCode code gD lD = .error e →
        (builtinEval compile evalCode args cl cg b).1 = .error e) ∧
    (builtinEvalOrExecCore compile args cl cg b "exec" = (.ok (code, gD, lD), gAfter2) →
      (∀ v, evalCode code gD lD = .ok v →
        (builtinExec compile evalCode args cl cg b).1 = .ok Object.none) ∧
      (∀ e, evalCode code gD lD = .error e →
        (builtinExec compile evalCode args cl cg b).1 = .error e)) := by
  refine ⟨fun h => ?_, fun h e he => ?_, fun h => ⟨fun v hv => ?_, fun e he => ?_⟩⟩
  · unfold builtinEval builtinEvalOrExec
    rw [h]
  · unfold builtinEval builtinEvalOrExec
    rw [h]
    simp [he]
  · unfold builtinExec builtinEvalOrExec
    rw [h]
    simp [hv]
  · unfold builtinExec builtinEvalOrExec
    rw [h]
    simp [he]

/-- C7 (witness): with a trivial compiler and a code-object source, an
Evaluator computing 7 makes `eval` return 7 and `exec` return None, and an
erroring Evaluator makes both propagate the error unchanged. -/
theorem C7_return_semantics_witness :
    (builtinEval (fun _ _ _ => .ok ⟨"c", [], []⟩) (fun _ _ _ => .ok (Object.intVal 7))
        [Object.code "c" [] []] [] [] []).1 = .ok (Object.intVal 7) ∧
    (builtinExec (fun _ _ _ => .ok ⟨"c", [], []⟩) (fun _ _ _ => .ok (Object.intVal 7))
        [Object.code "c" [] []] [] [] []).1 = .ok Object.none ∧
    (builtinEval (fun _ _ _ => .ok ⟨"c", [], []⟩)
        (fun _ _ _ => .error ⟨.valueError, "boom"⟩)
        [Object.code "c" [] []] [] [] []).1 = .error ⟨.valueError, "boom"⟩ ∧
    (builtinExec (fun _ _ _ => .ok ⟨"c", [], []⟩)
        (fun _ _ _ => .error ⟨.valueError, "boom"⟩)
        [Object.code "c" [] []] [] [] []).1 = .error ⟨.valueError, "boom"⟩ := by
  have h1 := C7_return_semantics (fun _ _ _ => .ok ⟨"c", [], []⟩)
    (fun _ _ _ => .ok (Object.intVal 7)) [Object.code "c" [] []] [] [] []
    ⟨"c", [], []⟩ (setItem [] (Object.str "__builtins__") (Object.dict [])) []
    (some (setItem [] (Object.str "__builtins__") (Object.dict [])))
    (some (setItem [] (Object.str "__builtins__") (Object.dict [])))
  have h2 := C7_return_semantics (fun _ _ _ => .ok ⟨"c", [], []⟩)
    (fun _ _ _ => .error ⟨.valueError, "boom"⟩) [Object.code "c" [] []] [] [] []
    ⟨"c", [], []⟩ (setItem [] (Object.str "__builtins__") (Object.dict [])) []
    (some (setItem [] (Object.str "__builtins__") (Object.dict [])))
    (some (setItem [] (Object.str "__builtins__") (Object.dict [])))
  exact ⟨h1.1 rfl, (h1.2.2 rfl).1 (Object.intVal 7) rfl,
    h2.2.1 rfl ⟨.valueError, "boom"⟩ rfl, (h2.2.2 rfl).2 ⟨.valueError, "boom"⟩ rfl⟩

/-! ### C9: builtins injection precedes source validation -/

/-- C9: with explicit dict namespaces whose globals lacks `__builtins__`, a
call that fails on an invalid source type or on free variables still leaves
the resolved globals mutated with the injected `__builtins__` entry — the
injection is not rolled back by the later TypeError. -/
theorem C9_injection_before_validation (compile : String → String → String → Except PyErr Code)
    (evalCode : Code → DictData → DictData → Except PyErr Object)
    (cl cg b : DictData) (mode : String) (cmd : Object) (gd ld : DictData)
    (hb : dictLookup gd (Object.str "__builtins__") = Option.none)
    (hbad : (isCode cmd = false ∧ isTextual cmd = false ∧ isBytes cmd = false) ∨
      (∃ code, resolveCode compile mode cmd = .ok code ∧ 0 < code.GetNumFree)) :
    (∃ e, (builtinEvalOrExec compile evalCode
        [cmd, Object.dict gd, Object.dict ld] cl cg b mode).1 =
          .error e ∧ e.kind = .typeError) ∧
    (builtinEvalOrExec compile evalCode
        [cmd, Object.dict gd, Object.dict ld] cl cg b mode).2 =
      some (setItem gd (Object.str "__builtins__") (Object.dict b)) ∧
    dictLookup (setItem gd (Object.str "__builtins__") (Object.dict b))
        (Object.str "__builtins__") = some (Object.dict b) := by
  have hcore := builtinEvalOrExecCore_eq compile
    [cmd, Object.dict gd, Object.dict ld] cl cg b mode cmd
    (Object.dict gd) (Object.dict ld) gd ld rfl rfl rfl
  simp only [hb, Option.isSome_none, Bool.false_eq_true, if_false] at hcore
  rcases hbad with ⟨h1, h2, h3⟩ | ⟨code, hres, hfree⟩
  · have hres : resolveCode compile mode cmd =
        .error ⟨.typeError, mode ++ "() arg 1 must be a string, bytes or code object"⟩ := by
      cases cmd <;> simp_all [resolveCode, isCode, isTextual, isBytes]
    rw [hres] at hcore
    refine ⟨⟨⟨.typeError, mode ++ "() arg 1 must be a string, bytes or code object"⟩,
      ?_, rfl⟩, ?_, dictLookup_setItem_self gd _ _ rfl⟩
    · unfold builtinEvalOrExec
      rw [hcore]
    · unfold builtinEvalOrExec
      rw [hcore]
  · simp only [hres, gt_iff_lt, hfree, if_true] at hcore
    refine ⟨⟨⟨.typeError, "code passed to " ++ mode ++ "() may not contain free variables"⟩,
      ?_, rfl⟩, ?_, dictLookup_setItem_self gd _ _ rfl⟩
    · unfold builtinEvalOrExec
      rw [hcore]
    · unfold builtinEvalOrExec
      rw [hcore]

/-- C9 (witness): an integer source argument with empty explicit namespaces;
the call fails but the returned resolved globals carries the injected
`__builtins__` entry. -/
theorem C9_injection_before_validation_witness :
    dictLookup ([] : DictData) (Object.str "__builtins__") = Option.none ∧
    isCode (Object.intVal 0) = false ∧
    (builtinEvalOrExec (fun _ _ _ => .ok ⟨"c", [], []⟩) (fun _ _ _ => .ok Object.none)
        [Object.intVal 0, Object.dict [], Object.dict []] [] [] [] "exec").2 =
      some (setItem [] (Object.str "__builtins__") (Object.dict [])) ∧
    dictLookup (setItem [] (Object.str "__builtins__") (Object.dict []))
        (Object.str "__builtins__") = some (Object.dict []) := by
  have h := C9_injection_before_validation (fun _ _ _ => .ok ⟨"c", [], []⟩)
    (fun _ _ _ => .ok Object.none) [] [] [] "exec" (Object.intVal 0) [] []
    rfl (Or.inl ⟨rfl, rfl, rfl⟩)
  exact ⟨rfl, rfl, h.2.1, h.2.2⟩

/-! ### Equality lemmas for C3 and C10 -/

/-- The M__eq__ loop only ever produces a boolean or an equality error. -/
theorem dictEqLoop_char (l b : List (Object × Object)) :
    dictEqLoop l b = .ok (.boolean true) ∨ dictEqLoop l b = .ok (.boolean false) ∨
      ∃ e, dictEqLoop l b = .error e := by
  induction l with
  | nil => left; rw [dictEqLoop]
  | cons kv rest ih =>
    obtain ⟨k, av⟩ := kv
    rw [dictEqLoop]
    rcases h : dictLookup b k with _ | bv
    · simp
    · simp only []
      rcases h2 : pyEq av bv with e | res
      · right; right; exact ⟨e, rfl⟩
      · cases res with
        | boolean bb =>
          cases bb
          · simp
          · simpa using ih
        | _ => simpa using ih

/-- The generic equality dispatch only ever returns a boolean when it
returns at all. -/
theorem pyEq_ok_bool (a b r : Object) (h : pyEq a b = .ok r) :
    r = .boolean true ∨ r = .boolean false := by
  rw [pyEq.eq_def] at h
  split at h
  · rename_i da db
    split at h
    · right
      simpa using h.symm
    · rcases dictEqLoop_char da db with hc | hc | ⟨e, hc⟩ <;> rw [hc] at h
      · left; simpa using h.symm
      · right; simpa using h.symm
      · simp at h
  · rcases hob : objBeq a b with _ | _ <;> rw [hob] at h
    · right; simpa using h.symm
    · left; simpa using h.symm

/-- The M__eq__ loop succeeds with True exactly when every entry of the left
list is found in the right list with a generically equal value. -/
theorem dictEqLoop_true_iff (l b : List (Object × Object)) :
    dictEqLoop l b = .ok (.boolean true) ↔
      ∀ kv ∈ l, ∃ bv, dictLookup b kv.1 = some bv ∧
        pyEq kv.2 bv = .ok (.boolean true) := by
  induction l with
  | nil => simp [dictEqLoop]
  | cons kv rest ih =>
    obtain ⟨k, av⟩ := kv
    rw [dictEqLoop]
    constructor
    · intro h
      rcases hlk : dictLookup b k with _ | bv <;> rw [hlk] at h
      · simp at h
      · simp only [] at h
        rcases hpe : pyEq av bv with e | res <;> rw [hpe] at h
        · simp at h
        · rcases pyEq_ok_bool av bv res hpe with hr | hr <;> subst hr
          · simp only [] at h
            intro kv2 hm
            rcases List.mem_cons.mp hm with heq | hm2
            · subst heq
              exact ⟨bv, hlk, hpe⟩
            · exact (ih.mp h) kv2 hm2
          · simp at h
    · intro hall
      obtain ⟨bv, hlk, hpe⟩ := hall (k, av) (List.mem_cons_self (k, av) rest)
      dsimp only at hlk hpe
      rw [hlk]
      simp only [hpe]
      exact ih.mpr fun kv2 hm => hall kv2 (List.mem_cons_of_mem _ hm)

/-- In a key-unique entry list, a member entry with a comparable key is what
lookup finds. -/
theorem dictLookup_of_mem (d : DictData) (k v : Object)
    (hnd : keysNodupB d = true) (hc : goComparable k = true) (hmem : (k, v) ∈ d) :
    dictLookup d k = some v := by
  induction d with
  | nil => simp at hmem
  | cons kv rest ih =>
    obtain ⟨k2, v2⟩ := kv
    simp only [keysNodupB, Bool.and_eq_true, List.all_eq_true] at hnd
    rcases List.mem_cons.mp hmem with heq | hm2
    · obtain ⟨hk, hv⟩ := Prod.mk.injEq k v k2 v2 ▸ heq
      subst hk
      subst hv
      simp [dictLookup, objBeq_refl k hc]
    · have hkk2 : objBeq k k2 = false := by
        rcases Bool.eq_false_or_eq_true (objBeq k k2) with h1 | h1
        swap
        · exact h1
        · obtain ⟨heq2, _⟩ := (objBeq_iff k k2).mp h1
          subst heq2
          have h2 := hnd.1 (k, v) hm2
          simp [objBeq_refl k hc] at h2
      simp only [dictLookup, hkk2, Bool.false_eq_true, if_false]
      exact ih hnd.2 hm2

/-- Every entry of a well-formed entry list has a comparable key and a
well-formed value. -/
theorem entriesWFB_mem (d : DictData) (kv : Object × Object)
    (h : entriesWFB d = true) (hm : kv ∈ d) :
    goComparable kv.1 = true ∧ objWFB kv.2 = true := by
  induction d with
  | nil => simp at hm
  | cons kv2 rest ih =>
    obtain ⟨k2, v2⟩ := kv2
    rw [entriesWFB] at h
    simp only [Bool.and_eq_true] at h
    rcases List.mem_cons.mp hm with heq | hm2
    · subst heq
      exact ⟨h.1.1, h.1.2⟩
    · exact ih h.2 hm2

/-- The generic equality dispatch is reflexive on well-formed values. -/
theorem pyEq_refl (v : Object) (h : objWFB v = true) :
    pyEq v v = .ok (.boolean true) := by
  match v with
  | .none => rw [pyEq] <;> simp [objBeq]
  | .notImplemented => rw [pyEq] <;> simp [objBeq]
  | .boolean x => rw [pyEq] <;> simp [objBeq]
  | .str x => rw [pyEq] <;> simp [objBeq]
  | .bytes x => rw [pyEq] <;> simp [objBeq]
  | .intVal x => rw [pyEq] <;> simp [objBeq]
  | .code n cs fv => rw [objWFB] at h; exact absurd h (by simp)
  | .dict d =>
    rw [objWFB] at h
    simp only [Bool.and_eq_true] at h
    obtain ⟨hnd, hwf⟩ := h
    rw [pyEq]
    simp only [ne_eq, not_true_eq_false, if_false]
    rw [dictEqLoop_true_iff]
    intro kv hm
    obtain ⟨k, av⟩ := kv
    obtain ⟨hck, hwfv⟩ := entriesWFB_mem d (k, av) hwf hm
    exact ⟨av, dictLookup_of_mem d k av hnd hck hm, pyEq_refl av hwfv⟩
termination_by sizeOf v
decreasing_by
  have h1 := List.sizeOf_lt_of_mem hm
  simp only [Prod.mk.sizeOf_spec] at h1
  simp only [Object.dict.sizeOf_spec]
  omega

/-- Two well-formed dict contents of equal length whose lookups agree
compare equal under M__eq__. -/
theorem M__eq___of_lookup_agree (a b : DictData)
    (hna : keysNodupB a = true) (hwa : entriesWFB a = true)
    (hlen : a.length = b.length) (hagree : ∀ k, dictLookup b k = dictLookup a k) :
    M__eq__ a (.dict b) = .ok (.boolean true) := by
  simp only [M__eq__]
  rw [if_neg (by simp [hlen]), dictEqLoop_true_iff]
  intro kv hm
  obtain ⟨k, av⟩ := kv
  obtain ⟨hck, hwfv⟩ := entriesWFB_mem a (k, av) hwa hm
  have hl : dictLookup a k = some av := dictLookup_of_mem a k av hna hck hm
  exact ⟨av, by rw [hagree k, hl], pyEq_refl av hwfv⟩

/-! ### C3: Dict structural equality -/

/-- C3: Dict equality returns NotImplemented on a non-Dict operand; returns
False when the lengths differ; at equal lengths it returns True exactly when
every key of the left dict is present in the right one with a generically
equal value; and on well-formed contents of equal length with agreeing
lookups (in particular identical key/value pairs) it returns True both ways
round. -/
theorem C3_dict_structural_equality (a b : DictData) (other : Object) :
    (isDict other = false → M__eq__ a other = .ok .notImplemented) ∧
    (a.length ≠ b.length → M__eq__ a (.dict b) = .ok (.boolean false)) ∧
    (a.length = b.length →
      (M__eq__ a (.dict b) = .ok (.boolean true) ↔
        ∀ kv ∈ a, ∃ bv, dictLookup b kv.1 = some bv ∧
          pyEq kv.2 bv = .ok (.boolean true))) ∧
    (keysNodupB a = true → entriesWFB a = true → keysNodupB b = true →
      entriesWFB b = true → a.length = b.length →
      (∀ k, dictLookup b k = dictLookup a k) →
      M__eq__ a (.dict b) = .ok (.boolean true) ∧
      M__eq__ b (.dict a) = .ok (.boolean true)) := by
  refine ⟨fun h => ?_, fun h => ?_, fun h => ?_,
    fun hna hwa hnb hwb hlen hagree => ?_⟩
  · cases other <;> simp_all [M__eq__, isDict]
  · simp [M__eq__, h]
  · simp only [M__eq__]
    rw [if_neg (by simp [h])]
    exact dictEqLoop_true_iff a b
  · exact ⟨M__eq___of_lookup_agree a b hna hwa hlen hagree,
      M__eq___of_lookup_agree b a hnb hwb hlen.symm fun k => (hagree k).symm⟩

/-- C3 (witness): a one-entry dict equals itself, a non-Dict operand yields
NotImplemented, and a length mismatch yields False. -/
theorem C3_dict_structural_equality_witness :
    M__eq__ [((Object.str "x" : Object), Object.intVal 1)] (Object.intVal 5) =
      .ok .notImplemented ∧
    M__eq__ [((Object.str "x" : Object), Object.intVal 1)]
        (Object.dict [((Object.str "x" : Object), Object.intVal 1)]) =
      .ok (.boolean true) ∧
    M__eq__ ([] : DictData)
        (Object.dict [((Object.str "x" : Object), Object.intVal 1)]) =
      .ok (.boolean false) := by
  have h1 := C3_dict_structural_equality
    [((Object.str "x" : Object), Object.intVal 1)]
    [((Object.str "x" : Object), Object.intVal 1)] (Object.intVal 5)
  have h2 := C3_dict_structural_equality ([] : DictData)
    [((Object.str "x" : Object), Object.intVal 1)] (Object.intVal 5)
  refine ⟨h1.1 rfl, ?_, h2.2.1 (by simp)⟩
  have hwf : entriesWFB [((Object.str "x" : Object), Object.intVal 1)] = true := by
    simp [entriesWFB, objWFB, goComparable]
  exact (h1.2.2.2 rfl hwf rfl hwf rfl fun k => rfl).1

/-- Dict equality only ever returns NotImplemented, a boolean, or an
equality error. -/
theorem M__eq___char (a : DictData) (other : Object) :
    M__eq__ a other = .ok .notImplemented ∨
      (∃ x, M__eq__ a other = .ok (.boolean x)) ∨
      ∃ e, M__eq__ a other = .error e := by
  cases other with
  | dict b =>
    right
    simp only [M__eq__]
    by_cases hlen : a.length ≠ b.length
    · rw [if_pos hlen]
      exact Or.inl ⟨false, rfl⟩
    · rw [if_neg hlen]
      rcases dictEqLoop_char a b with h | h | ⟨e, h⟩
      · exact Or.inl ⟨true, h⟩
      · exact Or.inl ⟨false, h⟩
      · exact Or.inr ⟨e, h⟩
  | none => left; rfl
  | notImplemented => left; rfl
  | boolean x => left; rfl
  | str x => left; rfl
  | bytes x => left; rfl
  | intVal x => left; rfl
  | code n cs fv => left; rfl

/-! ### C10: Dict inequality mirrors equality -/

/-- C10: Dict inequality returns NotImplemented exactly when equality does,
propagates every equality error unchanged, and otherwise returns the boolean
negation of the equality result. -/
theorem C10_dict_inequality (a : DictData) (other : Object) :
    (M__ne__ a other = .ok .notImplemented ↔ M__eq__ a other = .ok .notImplemented) ∧
    (∀ e, M__eq__ a other = .error e → M__ne__ a other = .error e) ∧
    (∀ x, M__eq__ a other = .ok (.boolean x) → M__ne__ a other = .ok (.boolean !x)) := by
  refine ⟨⟨fun h => ?_, fun h => ?_⟩, fun e h => ?_, fun x h => ?_⟩
  · rcases M__eq___char a other with hc | ⟨x, hc⟩ | ⟨e, hc⟩
    · exact hc
    · unfold M__ne__ at h
      rw [hc] at h
      cases x <;> simp at h
    · unfold M__ne__ at h
      rw [hc] at h
      simp at h
  · unfold M__ne__
    rw [h]
  · unfold M__ne__
    rw [h]
  · unfold M__ne__
    rw [h]
    cases x <;> rfl

/-- C10 (witness): on a non-Dict operand inequality yields NotImplemented
like equality, and on two empty dicts equality True flips to inequality
False. -/
theorem C10_dict_inequality_witness :
    M__ne__ ([] : DictData) (Object.intVal 0) = .ok .notImplemented ∧
    M__eq__ ([] : DictData) (Object.dict []) = .ok (.boolean true) ∧
    M__ne__ ([] : DictData) (Object.dict []) = .ok (.boolean false) := by
  have h1 := C10_dict_inequality ([] : DictData) (Object.intVal 0)
  have h2 := C10_dict_inequality ([] : DictData) (Object.dict [])
  have heq : M__eq__ ([] : DictData) (Object.dict []) = .ok (.boolean true) := by
    simp only [M__eq__]
    rw [if_neg (by simp), dictEqLoop]
  exact ⟨h1.1.mpr rfl, heq, h2.2.2 true heq⟩
